import Mathlib

/-!
# Verification of the nam-web-app authentication core

A shallow embedding of the session / identity management subsystem of the
repository (Cloudflare Pages functions over a D1 relational store), together
with proofs about the embedded operations.

Modelling conventions:
* The D1 database is a pure value: a list of `users` rows and a list of
  `sessions` rows.  SQL `SELECT ... WHERE ... LIMIT 1` / `.first()` becomes
  `List.find?`; `INSERT` appends a row; `UPDATE` maps over rows.
* Timestamps are naturals (UTC epoch seconds); an explicit `now` parameter
  stands for the clock.  `expiresAt.setDate(getDate() + d)` becomes
  `now + d * 86400`.  The session expiry is stored as the TEXT produced by
  `Date.prototype.toISOString()` (`isoString`), and the SQL filter
  `expires_at > datetime("now")` compares that against SQLite's
  space-separated now-string (`sqliteNow`) under binary TEXT collation,
  modelled by byte-wise lexicographic comparison (`lexLt`).
* Randomness (`crypto.randomUUID()`, `crypto.getRandomValues`) becomes
  explicit parameters (fresh ids, tokens, salts).
* JavaScript exceptions become `Except String`; a `try { ... } catch` block
  becomes a `match` on the `Except` value.
* `PBKDF2-SHA256` key derivation (`crypto.subtle.deriveBits`) is kept as an
  abstract function parameter `kdf : List Nat → List Nat → List Nat`
  (key material bytes, salt bytes ↦ derived key bytes): every theorem below
  is proved for an arbitrary derivation function, so it holds in particular
  for the real PBKDF2.
* Plaintext passwords are already UTF-8 byte lists where the source runs
  them through `TextEncoder` (`hashPassword` / `verifyPassword`).
-/

set_option autoImplicit false

namespace NamWebApp

/-- A row of the `users` table (schema in `schema.sql` / the migration that
made `password_hash` nullable). -/
structure UserRow where
  id : Nat
  email : String
  password_hash : Option String
  name : String
  provider : String
  provider_id : Option String
  avatar_url : Option String
  marketing_agree : Bool
  email_verified : Bool
  status : String
  created_at : Nat
  updated_at : Nat
  last_login_at : Option Nat
  deriving Repr, DecidableEq

/-- One decimal digit character. -/
def digitChar (n : Nat) : Char := Char.ofNat (48 + n)

/-- A number rendered as two decimal digits (calendar fields). -/
def pad2 (n : Nat) : List Char := [digitChar (n / 10 % 10), digitChar (n % 10)]

/-- A number rendered as four decimal digits (the year field). -/
def pad4 (n : Nat) : List Char :=
  [digitChar (n / 1000 % 10), digitChar (n / 100 % 10),
   digitChar (n / 10 % 10), digitChar (n % 10)]

/-- Proleptic-Gregorian civil date from days since 1970-01-01 (the standard
era-based conversion, as performed by the JS `Date` / SQLite calendars). -/
def civilFromDays (z0 : Nat) : Nat × Nat × Nat :=
  let z := z0 + 719468
  let era := z / 146097
  let doe := z % 146097
  let yoe := (doe - doe / 1460 + doe / 36524 - doe / 146096) / 365
  let y := yoe + era * 400
  let doy := doe - (365 * yoe + yoe / 4 - yoe / 100)
  let mp := (5 * doy + 2) / 153
  let d := doy - (153 * mp + 2) / 5 + 1
  let m := if mp < 10 then mp + 3 else mp - 9
  (if m ≤ 2 then y + 1 else y, m, d)

/-- `YYYY-MM-DD{sep}HH:MM:SS` for a UTC epoch-second timestamp. -/
def dateTimeChars (t : Nat) (sep : Char) : List Char :=
  let dt := civilFromDays (t / 86400)
  let secs := t % 86400
  pad4 dt.1 ++ '-' :: pad2 dt.2.1 ++ '-' :: pad2 dt.2.2 ++
    sep :: pad2 (secs / 3600) ++ ':' :: pad2 (secs % 3600 / 60) ++
    ':' :: pad2 (secs % 60)

/-- `Date.prototype.toISOString()`: `YYYY-MM-DDTHH:MM:SS.sssZ` (the
millisecond field is constantly `000` since the model counts whole
seconds). -/
def isoString (t : Nat) : String :=
  String.mk (dateTimeChars t 'T' ++ ".000Z".data)

/-- SQLite `datetime("now")`: `YYYY-MM-DD HH:MM:SS`. -/
def sqliteNow (t : Nat) : String :=
  String.mk (dateTimeChars t ' ')

/-- Byte-wise lexicographic `<` on character lists: SQLite's binary TEXT
collation on these ASCII strings. -/
def lexLt : List Char → List Char → Bool
  | [], [] => false
  | [], _ :: _ => true
  | _ :: _, [] => false
  | a :: as, b :: bs => if a < b then true else if b < a then false else lexLt as bs

/-- The SQL TEXT comparison `a < b` under binary collation. -/
def sqlTextLt (a b : String) : Bool := lexLt a.data b.data

/-- A row of the `sessions` table.  `expires_at` is the stored TEXT value
(the `toISOString()` output bound by `createSession`). -/
structure SessionRow where
  id : String
  user_id : Nat
  token : String
  expires_at : String
  created_at : Nat
  deriving Repr, DecidableEq

/-- The backing D1 database (the two tables the auth core touches). -/
structure DB where
  users : List UserRow
  sessions : List SessionRow
  deriving Repr, DecidableEq

/-- The projection returned by `verifySession`'s user query:
`SELECT id, email, name, provider, avatar_url, email_verified, status`.
It has no `password_hash` field: the credential cannot appear in the result. -/
structure PublicUser where
  id : Nat
  email : String
  name : String
  provider : String
  avatar_url : Option String
  email_verified : Bool
  status : String
  deriving Repr, DecidableEq

/-- The column list of `verifySession`'s `SELECT` over `users`. -/
def publicProj (u : UserRow) : PublicUser :=
  { id := u.id
    email := u.email
    name := u.name
    provider := u.provider
    avatar_url := u.avatar_url
    email_verified := u.email_verified
    status := u.status }

/-- `verifySession` from `functions/utils/session.js` (lines 63–99):
empty id → null; look up a session row by id whose stored `expires_at` TEXT
compares greater than `datetime("now")` (binary collation); look up the
owning user; reject a missing or non-`active` user; otherwise return the
public projection. -/
def verifySession (db : DB) (now : Nat) (sessionId : String) : Option PublicUser :=
  if sessionId = "" then
    none
  else
    match db.sessions.find? (fun s =>
        s.id == sessionId && sqlTextLt (sqliteNow now) s.expires_at) with
    | none => none
    | some session =>
      match db.users.find? (fun u => u.id == session.user_id) with
      | none => none
      | some user =>
        if user.status ≠ "active" then none else some (publicProj user)

/-- The fallible store interface `verifySession` runs against: each
`.prepare(...).first()` round-trip either yields a row-or-null or throws.
`querySession` models the combined `id = ? AND expires_at > datetime("now")`
query, `queryUser` the projection query over `users`. -/
structure Store where
  querySession : String → Except String (Option SessionRow)
  queryUser : Nat → Except String (Option UserRow)

/-- The body of `verifySession`'s `try` block, with store errors propagating
as exceptions (an `await` that throws aborts the body with that error). -/
def verifySessionTry (st : Store) (sessionId : String) :
    Except String (Option PublicUser) :=
  if sessionId = "" then
    Except.ok none
  else
    match st.querySession sessionId with
    | Except.error e => Except.error e
    | Except.ok none => Except.ok none
    | Except.ok (some session) =>
      match st.queryUser session.user_id with
      | Except.error e => Except.error e
      | Except.ok none => Except.ok none
      | Except.ok (some user) =>
        if user.status ≠ "active" then Except.ok none
        else Except.ok (some (publicProj user))

/-- `verifySession` as exported: the `catch` block turns any thrown error
into `null`. -/
def verifySessionCaught (st : Store) (sessionId : String) : Option PublicUser :=
  match verifySessionTry st sessionId with
  | Except.ok r => r
  | Except.error _ => none

/-- The store backed by the pure database value, where no query throws. -/
def storeOfDB (db : DB) (now : Nat) : Store :=
  { querySession := fun sid =>
      Except.ok (db.sessions.find? (fun s =>
        s.id == sid && sqlTextLt (sqliteNow now) s.expires_at))
    queryUser := fun uid => Except.ok (db.users.find? (fun u => u.id == uid)) }

/-- Concrete user row used by the closed witnesses below. -/
def demoUser : UserRow :=
  { id := 1
    email := "ann@example.com"
    password_hash := some "aa:bb"
    name := "Ann"
    provider := "email"
    provider_id := none
    avatar_url := none
    marketing_agree := false
    email_verified := false
    status := "active"
    created_at := 0
    updated_at := 0
    last_login_at := none }

/-- Concrete session row for `demoUser`, expiring seven days in. -/
def demoSession : SessionRow :=
  { id := "s1", user_id := 1, token := "t1",
    expires_at := isoString (7 * 86400), created_at := 0 }

/-- Concrete database: one active user, one session. -/
def demoDB : DB := { users := [demoUser], sessions := [demoSession] }

/-! ## Credential hasher (`hashPassword` / `verifyPassword`) -/

/-- One lowercase hex digit, as produced by `Number.prototype.toString(16)`. -/
def hexDigit (n : Nat) : Char :=
  if n < 10 then Char.ofNat (48 + n) else Char.ofNat (87 + n)

/-- `b.toString(16).padStart(2, '0')` for a byte `b < 256`. -/
def byteHexChars (b : Nat) : List Char :=
  [hexDigit (b / 16), hexDigit (b % 16)]

/-- `bytes.map(b => b.toString(16).padStart(2, '0')).join('')`. -/
def bytesToHexChars (bs : List Nat) : List Char :=
  (bs.map byteHexChars).flatten

/-- Same hex encoding, packaged as a string. -/
def bytesToHex (bs : List Nat) : String :=
  String.mk (bytesToHexChars bs)

/-- `hashPassword` from the validation utilities (`src/unnamed/part_000`),
with the randomness (the 16-byte salt from `crypto.getRandomValues`) and the
PBKDF2-SHA256 derivation (`crypto.subtle.deriveBits`, whose `importKey`
material is `salt ++ password` and whose PBKDF2 salt is `salt`) made explicit
parameters.  `password` is the UTF-8 byte list produced by `TextEncoder`.
The derivation output buffer is viewed as bytes (`new Uint8Array`), hence the
`% 256`.  Result: the encoded `saltHex:hashHex` string. -/
def hashPassword (kdf : List Nat → List Nat → List Nat)
    (salt : List Nat) (password : List Nat) : String :=
  let combined := salt ++ password
  let hashBytes := (kdf combined salt).map (fun b => b % 256)
  bytesToHex salt ++ ":" ++ bytesToHex hashBytes

/-- `String.prototype.split(':')` on the character list. -/
def splitOnColon : List Char → List (List Char)
  | [] => [[]]
  | c :: rest =>
    if c = ':' then [] :: splitOnColon rest
    else
      match splitOnColon rest with
      | [] => [[c]]
      | p :: ps => (c :: p) :: ps

/-- The JS regex global match `str.match(/.{1,2}/g)` without the `null` case:
greedy chunks of one or two characters, where `.` does not match a newline
(the engine skips an unmatchable position by one character). -/
def matchChunks2 : List Char → List (List Char)
  | [] => []
  | c :: rest =>
    if c = '\n' then matchChunks2 rest
    else
      match rest with
      | [] => [[c]]
      | d :: rest2 =>
        if d = '\n' then [c] :: matchChunks2 rest2
        else [c, d] :: matchChunks2 rest2

/-- `str.match(/.{1,2}/g)` proper: `null` (`none`) when there is no match. -/
def jsMatchChunks (cs : List Char) : Option (List (List Char)) :=
  match matchChunks2 cs with
  | [] => none
  | l => some l

/-- JS whitespace accepted by `parseInt`. -/
def jsSpace (c : Char) : Bool :=
  c = ' ' || c = '\t' || c = '\n' || c = '\r' || c = '\x0b' || c = '\x0c'

/-- Hex digit test for `parseInt(_, 16)`. -/
def isHexDigitChar (c : Char) : Bool :=
  ('0' ≤ c && c ≤ '9') || ('a' ≤ c && c ≤ 'f') || ('A' ≤ c && c ≤ 'F')

/-- Value of a hex digit character. -/
def hexVal (c : Char) : Nat :=
  if '0' ≤ c && c ≤ '9' then c.toNat - 48
  else if 'a' ≤ c && c ≤ 'f' then c.toNat - 87
  else c.toNat - 55

/-- The optional `0x` / `0X` prefix `parseInt(_, 16)` strips. -/
def strip0x (cs : List Char) : List Char :=
  match cs with
  | c :: d :: r => if c = '0' && (d = 'x' || d = 'X') then r else cs
  | _ => cs

/-- Longest hex-digit prefix value; `none` models `NaN`. -/
def hexPrefixVal (cs : List Char) : Option Nat :=
  if (cs.takeWhile isHexDigitChar).isEmpty then none
  else some ((cs.takeWhile isHexDigitChar).foldl (fun a c => a * 16 + hexVal c) 0)

/-- `parseInt(chunk, 16)`: strip whitespace, optional sign, optional `0x`,
then the longest hex-digit prefix; `none` models `NaN`. -/
def parseIntHex (cs : List Char) : Option Int :=
  if (cs.dropWhile jsSpace).headD ' ' = '+' then
    (hexPrefixVal (strip0x (cs.dropWhile jsSpace).tail)).map (fun n => (n : Int))
  else if (cs.dropWhile jsSpace).headD ' ' = '-' then
    (hexPrefixVal (strip0x (cs.dropWhile jsSpace).tail)).map (fun n => -(n : Int))
  else (hexPrefixVal (strip0x (cs.dropWhile jsSpace))).map (fun n => (n : Int))

/-- Storing a `parseInt` result into a `Uint8Array` slot: `NaN` becomes `0`,
other values are reduced mod 256. -/
def toUint8 (v : Option Int) : Nat :=
  match v with
  | none => 0
  | some i => (i % 256).toNat

/-- `verifyPassword` from the validation utilities (`src/unnamed/part_000`):
split the stored hash on `:` (destructuring takes the first two fields),
rebuild the salt from the 2-char chunks of the salt field, re-derive with the
same parameters and compare the hex digests.  `Except.error` models the
`TypeError` thrown when `saltHex.match(/.{1,2}/g)` is `null` and the code
calls `.map` on it; a missing hash field compares unequal (`=== undefined`). -/
def verifyPasswordRun (kdf : List Nat → List Nat → List Nat)
    (password : List Nat) (hash : String) : Except String Bool :=
  let parts := splitOnColon hash.data
  let saltHex := parts.headD []
  let hashHex? := parts[1]?
  match jsMatchChunks saltHex with
  | none => Except.error "TypeError: null.map"
  | some chunks =>
    let salt := chunks.map (fun c => toUint8 (parseIntHex c))
    let combined := salt ++ password
    let computedHash := bytesToHexChars ((kdf combined salt).map (fun b => b % 256))
    Except.ok (match hashHex? with
      | none => false
      | some h => computedHash == h)

/-! ## User store adapter (db utilities, `src/unnamed/part_001`) -/

/-- `String.prototype.trim()`, modelled on the character list (strip
whitespace from both ends). -/
def jsTrim (s : String) : String :=
  String.mk (((s.data.dropWhile Char.isWhitespace).reverse.dropWhile
    Char.isWhitespace).reverse)

/-- `String.prototype.toLowerCase()`, modelled on the character list. -/
def jsToLower (s : String) : String := String.mk (s.data.map Char.toLower)

/-- The email normalization applied before every user-store write and lookup:
`email.trim().toLowerCase()`. -/
def normEmail (email : String) : String := jsToLower (jsTrim email)

/-- `error.message.includes(sub)`. -/
def jsIncludes (msg sub : String) : Bool := decide (sub.data <:+: msg.data)

/-- `checkEmailExists`: normalized-email existence query
(`SELECT id FROM users WHERE email = ? LIMIT 1`). -/
def checkEmailExists (db : DB) (email : String) : Bool :=
  (db.users.find? (fun u => u.email == normEmail email)).isSome

/-- The fields `createUser` destructures from its `userData` argument. -/
structure NewUserData where
  name : String
  email : String
  passwordHash : String
  marketingAgree : Bool
  deriving Repr, DecidableEq

/-- The `INSERT INTO users ...` statement issued by `createUser`: SQLite
raises the UNIQUE-constraint error when a row with the same (already
normalized) email exists; otherwise the row is appended with the next id
(AUTOINCREMENT) and `last_row_id` is returned. -/
def insertUserRow (db : DB) (now : Nat) (d : NewUserData) : Except String (Nat × DB) :=
  let e := normEmail d.email
  if db.users.any (fun u => u.email == e) then
    Except.error "UNIQUE constraint failed: users.email"
  else
    let newId := (db.users.map UserRow.id).foldr max 0 + 1
    Except.ok (newId,
      { db with users := db.users ++
          [{ id := newId
             email := e
             password_hash := some d.passwordHash
             name := jsTrim d.name
             provider := "email"
             provider_id := none
             avatar_url := none
             marketing_agree := d.marketingAgree
             email_verified := false
             status := "active"
             created_at := now
             updated_at := now
             last_login_at := none }] })

/-- `createUser`: normalize the email, insert with provider `email`, and
translate a caught UNIQUE-constraint violation into the distinct
duplicate-email error message. -/
def createUser (db : DB) (now : Nat) (d : NewUserData) : Except String (Nat × DB) :=
  match insertUserRow db now d with
  | Except.ok r => Except.ok r
  | Except.error msg =>
    if jsIncludes msg "UNIQUE constraint failed" then
      Except.error "이미 가입된 이메일입니다."
    else Except.error msg

/-- The projection returned by `getUserByEmail`'s `SELECT` (it includes the
password hash, needed by login for verification). -/
structure AuthUser where
  id : Nat
  email : String
  password_hash : Option String
  name : String
  provider : String
  avatar_url : Option String
  email_verified : Bool
  status : String
  created_at : Nat
  deriving Repr, DecidableEq

/-- Column list of `getUserByEmail`. -/
def authProj (u : UserRow) : AuthUser :=
  { id := u.id
    email := u.email
    password_hash := u.password_hash
    name := u.name
    provider := u.provider
    avatar_url := u.avatar_url
    email_verified := u.email_verified
    status := u.status
    created_at := u.created_at }

/-- `getUserByEmail`: normalized-email lookup returning the auth projection. -/
def getUserByEmail (db : DB) (email : String) : Option AuthUser :=
  (db.users.find? (fun u => u.email == normEmail email)).map authProj

/-- `updateLastLogin`: best-effort `UPDATE users SET last_login_at =
CURRENT_TIMESTAMP WHERE id = ?` (its errors are swallowed). -/
def updateLastLogin (db : DB) (now : Nat) (userId : Nat) : DB :=
  { db with users := db.users.map (fun u =>
      if u.id == userId then { u with last_login_at := some now } else u) }

/-- The update object handed to `updateUser` (built by the profile endpoint:
it can carry a `name` and a `passwordHash`). -/
structure UpdateData where
  name : Option String
  passwordHash : Option String
  deriving Repr, DecidableEq

/-- `updateUser` from the db utilities: it destructures only `name` from the
update object, collects `name = ?` when present, raises when nothing was
collected, and always appends `updated_at = CURRENT_TIMESTAMP`.  The
`passwordHash` member is never destructured, so it is never persisted. -/
def updateUser (db : DB) (now : Nat) (userId : Nat) (d : UpdateData) :
    Except String DB :=
  match d.name with
  | none => Except.error "업데이트할 데이터가 없습니다."
  | some n =>
    Except.ok { db with users := db.users.map (fun u =>
      if u.id == userId then { u with name := jsTrim n, updated_at := now } else u) }

/-! ## Session creation / bulk deletion (`functions/utils/session.js`) -/

/-- `createSession`: persist a fresh row whose id and token are the two
freshly drawn UUIDs and whose expiry, `now + expiresInDays` days, is bound
as the `toISOString()` TEXT; the session id is returned. -/
def createSession (db : DB) (now : Nat) (sessionId token : String)
    (userId : Nat) (expiresInDays : Nat) : String × DB :=
  (sessionId,
   { db with sessions := db.sessions ++
       [{ id := sessionId
          user_id := userId
          token := token
          expires_at := isoString (now + expiresInDays * 86400)
          created_at := now }] })

/-- `deleteAllUserSessions`: `DELETE FROM sessions WHERE user_id = ?`.
No endpoint under `src/` ever calls this function. -/
def deleteAllUserSessions (db : DB) (userId : Nat) : DB :=
  { db with sessions := db.sessions.filter (fun s => s.user_id ≠ userId) }

/-! ## Login endpoint (`src/unnamed/part_003`) -/

/-- JS falsiness of an optional string field (`undefined`/`null` or `""`). -/
def isFalsyStr (o : Option String) : Bool :=
  match o with
  | none => true
  | some s => s == ""

/-- The body fields the login endpoint destructures. -/
structure LoginBody where
  email : Option String
  password : Option String
  keepLogin : Bool
  deriving Repr, DecidableEq

/-- A `Set-Cookie` header value as assembled by the handlers. -/
structure SetCookie where
  name : String
  value : String
  httpOnly : Bool
  secure : Bool
  sameSite : String
  path : String
  maxAge : Nat
  deriving Repr, DecidableEq

/-- The observable JSON/headers of a login response. -/
structure LoginResponse where
  status : Nat
  success : Bool
  error : Option String
  suggestSignup : Bool
  isSocialLogin : Bool
  provider : Option String
  userId : Option Nat
  cookie : Option SetCookie
  deriving Repr, DecidableEq

/-- The Korean provider display name used in the social-login 403 message. -/
def providerDisplayName (p : String) : String :=
  if p = "google" then "구글"
  else if p = "kakao" then "카카오"
  else if p = "naver" then "네이버"
  else if p = "facebook" then "페이스북"
  else "소셜"

/-- `onRequestPost` of the login endpoint.  `verifyPw` abstracts
`verifyPassword` (which can throw, hence `Except`; a thrown error reaches the
outer `catch` and becomes the 500 response); `sid`/`tok` are the fresh UUIDs
drawn inside `createSession`.  Returns the response and the resulting DB. -/
def loginPost (db : DB) (body : LoginBody)
    (verifyPw : String → String → Except String Bool)
    (sid tok : String) (now : Nat) : LoginResponse × DB :=
  if isFalsyStr body.email || isFalsyStr body.password then
    ({ status := 400, success := false, error := some "이메일과 비밀번호를 입력해주세요.",
       suggestSignup := false, isSocialLogin := false, provider := none,
       userId := none, cookie := none }, db)
  else
    match getUserByEmail db (body.email.getD "") with
    | none =>
      ({ status := 401, success := false, error := some "가입되지 않은 이메일입니다.",
         suggestSignup := true, isSocialLogin := false, provider := none,
         userId := none, cookie := none }, db)
    | some user =>
      if isFalsyStr user.password_hash then
        ({ status := 403, success := false,
           error := some (providerDisplayName user.provider ++
             " 로그인으로 가입한 계정입니다. 소셜 로그인을 이용해주세요."),
           suggestSignup := false, isSocialLogin := true,
           provider := some user.provider, userId := none, cookie := none }, db)
      else if user.status ≠ "active" then
        ({ status := 403, success := false, error := some "로그인할 수 없는 계정입니다.",
           suggestSignup := false, isSocialLogin := false, provider := none,
           userId := none, cookie := none }, db)
      else
        match verifyPw (body.password.getD "") (user.password_hash.getD "") with
        | Except.error _ =>
          ({ status := 500, success := false,
             error := some "로그인 중 오류가 발생했습니다. 잠시 후 다시 시도해주세요.",
             suggestSignup := false, isSocialLogin := false, provider := none,
             userId := none, cookie := none }, db)
        | Except.ok false =>
          ({ status := 401, success := false,
             error := some "이메일 또는 비밀번호가 올바르지 않습니다.",
             suggestSignup := false, isSocialLogin := false, provider := none,
             userId := none, cookie := none }, db)
        | Except.ok true =>
          let expiresInDays := if body.keepLogin then 30 else 7
          let sessionAndDb := createSession db now sid tok user.id expiresInDays
          let db2 := updateLastLogin sessionAndDb.2 now user.id
          ({ status := 200, success := true, error := none, suggestSignup := false,
             isSocialLogin := false, provider := none, userId := some user.id,
             cookie := some
               { name := "session", value := sessionAndDb.1, httpOnly := true,
                 secure := true, sameSite := "Lax", path := "/",
                 maxAge := expiresInDays * 24 * 60 * 60 } }, db2)

/-! ## Cookie scanning (shared by the endpoints) -/

/-- The ad hoc cookie scan `cookies.match(/name=([^;]+)/)`: find the first
position where the literal pattern occurs followed by at least one non-`;`
character; the capture is the maximal such run (on a failed attempt the
engine advances one position). -/
def cookieMatch (pat : List Char) (cs : List Char) : Option (List Char) :=
  match cs with
  | [] => none
  | _ :: rest =>
    if pat.isPrefixOf cs then
      let capture := (cs.drop pat.length).takeWhile (fun c => c ≠ ';')
      if capture.isEmpty then cookieMatch pat rest else some capture
    else cookieMatch pat rest

/-- The `session=([^;]+)` scan of the request cookie header. -/
def sessionIdFromCookie (cookie : String) : Option String :=
  (cookieMatch "session=".data cookie.data).map String.mk

/-- The `oauth_state=([^;]+)` scan of the request cookie header. -/
def oauthStateFromCookie (cookie : String) : Option String :=
  (cookieMatch "oauth_state=".data cookie.data).map String.mk

/-! ## Profile endpoint (`functions/api/auth/profile.js`, password variant) -/

/-- `validatePassword` from the validation utilities: `none` when valid,
`some message` when too short or too long. -/
def validatePassword (password : String) : Option String :=
  if password.length < 8 then some "비밀번호는 8자 이상이어야 합니다."
  else if password.length > 128 then some "비밀번호는 128자 이하여야 합니다."
  else none

/-- The body fields the profile endpoint destructures. -/
structure ProfileBody where
  name : Option String
  currentPassword : Option String
  newPassword : Option String
  newPasswordConfirm : Option String
  deriving Repr, DecidableEq

/-- The observable part of a profile-update response. -/
structure ProfileResponse where
  status : Nat
  success : Bool
  error : Option String
  deriving Repr, DecidableEq

/-- The 500 response produced by the profile endpoint's outer `catch`. -/
def profileCatchResponse : ProfileResponse :=
  { status := 500, success := false, error := some "프로필 업데이트 중 오류가 발생했습니다." }

/-- Steps 8–9 of the profile handler: assemble `updateData`, call
`updateUser` when it is non-empty (an `updateUser` throw reaches the outer
`catch`), then re-read the session for the response body (a missing re-read
row would make the JS field dereference throw → 500). -/
def profileFinishUpdate (db : DB) (now : Nat) (sessionId : String) (userId : Nat)
    (name : Option String) (passwordHash : Option String) : ProfileResponse × DB :=
  let updateData : UpdateData := { name := name, passwordHash := passwordHash }
  if updateData.name.isSome || updateData.passwordHash.isSome then
    match updateUser db now userId updateData with
    | Except.error _ => (profileCatchResponse, db)
    | Except.ok db1 =>
      match verifySession db1 now sessionId with
      | none => (profileCatchResponse, db1)
      | some _ => ({ status := 200, success := true, error := none }, db1)
  else
    match verifySession db now sessionId with
    | none => (profileCatchResponse, db)
    | some _ => ({ status := 200, success := true, error := none }, db)

/-- `onRequestPut` of the profile endpoint (the variant with the
password-change path): cookie → session check → full-user re-query →
name validation → password-change validation and re-hash → `updateUser` →
re-read.  `verifyPw` abstracts `verifyPassword` and `hashPw` abstracts
`hashPassword` (salt randomness folded into the oracle).  Any error thrown
by `verifyPw` or by `updateUser` reaches the outer `catch` (the 500
response).  Returns the response and the resulting DB. -/
def profilePut (db : DB) (now : Nat) (cookie : String) (body : ProfileBody)
    (verifyPw : String → String → Except String Bool)
    (hashPw : String → String) : ProfileResponse × DB :=
  match sessionIdFromCookie cookie with
  | none =>
    ({ status := 401, success := false, error := some "로그인이 필요합니다." }, db)
  | some sessionId =>
    match verifySession db now sessionId with
    | none =>
      ({ status := 401, success := false,
         error := some "세션이 만료되었거나 유효하지 않습니다." }, db)
    | some user =>
      let fullUser := db.users.find? (fun u => u.id == user.id)
      if body.name.isSome &&
          (isFalsyStr body.name || decide ((jsTrim (body.name.getD "")).length < 2)) then
        ({ status := 400, success := false,
           error := some "이름은 2자 이상 입력해주세요." }, db)
      else if isFalsyStr body.newPassword then
        profileFinishUpdate db now sessionId user.id body.name none
      else
        let np := body.newPassword.getD ""
        if body.newPasswordConfirm ≠ some np then
          ({ status := 400, success := false,
             error := some "새 비밀번호가 일치하지 않습니다." }, db)
        else
          match validatePassword np with
          | some msg => ({ status := 400, success := false, error := some msg }, db)
          | none =>
            match fullUser with
            | none => (profileCatchResponse, db)
            | some fu =>
              if isFalsyStr fu.password_hash then
                profileFinishUpdate db now sessionId user.id body.name (some (hashPw np))
              else if isFalsyStr body.currentPassword then
                ({ status := 400, success := false,
                   error := some "기존 비밀번호를 입력해주세요." }, db)
              else
                match verifyPw (body.currentPassword.getD "")
                    (fu.password_hash.getD "") with
                | Except.error _ => (profileCatchResponse, db)
                | Except.ok false =>
                  ({ status := 400, success := false,
                     error := some "기존 비밀번호가 올바르지 않습니다." }, db)
                | Except.ok true =>
                  profileFinishUpdate db now sessionId user.id body.name (some (hashPw np))

/-! ## OAuth callbacks (`functions/api/auth/google/callback.js`,
`functions/api/auth/kakao/callback.js`) -/

/-- The query parameters and headers a callback request carries. -/
structure CallbackRequest where
  origin : String
  code : Option String
  state : Option String
  error : Option String
  cookie : String
  deriving Repr, DecidableEq

/-- The provider credentials read from the environment. -/
structure OAuthConfig where
  clientId : Option String
  clientSecret : Option String
  deriving Repr, DecidableEq

/-- The outbound HTTP calls a callback can make, in order. -/
inductive FetchCall where
  | tokenExchange
  | profileFetch
  deriving Repr, DecidableEq

/-- Oracle for the two provider HTTP round-trips of the google callback. -/
structure GoogleOracle where
  tokenOk : Bool
  accessToken : Option String
  userInfoOk : Bool
  googleId : String
  googleEmail : String
  googleName : Option String
  googlePicture : Option String
  deriving Repr, DecidableEq

/-- Oracle for the two provider HTTP round-trips of the kakao callback. -/
structure KakaoOracle where
  tokenOk : Bool
  accessToken : Option String
  userInfoOk : Bool
  kakaoId : Option String
  kakaoEmail : Option String
  kakaoNickname : Option String
  kakaoAccountName : Option String
  kakaoProfileImageUrl : Option String
  deriving Repr, DecidableEq

/-- What a callback invocation is observed to do. -/
structure CbResult where
  status : Nat
  location : Option String
  cookie : Option SetCookie
  fetches : List FetchCall
  db : DB
  deriving Repr, DecidableEq

/-- Modelled from the spec: `createOrGetSocialUser` is imported by both OAuth
callbacks from the db utilities, but its definition is not among the source
files under `src/`.  Per spec §4.3 it looks up by `(provider, providerId)`,
else links onto the account with the same normalized email (marking the email
verified), else creates a fresh social user with no password credential. -/
def createOrGetSocialUser (db : DB) (now : Nat) (provider providerId email name : String)
    (avatarUrl : Option String) : UserRow × DB :=
  match db.users.find? (fun u =>
      u.provider == provider && u.provider_id == some providerId) with
  | some u => (u, db)
  | none =>
    match db.users.find? (fun u => u.email == normEmail email) with
    | some u =>
      let linked :=
        { u with provider := provider, provider_id := some providerId,
                 email_verified := true, updated_at := now }
      (linked, { db with users := db.users.map (fun w => if w.id == u.id then linked else w) })
    | none =>
      let newId := (db.users.map UserRow.id).foldr max 0 + 1
      let fresh : UserRow :=
        { id := newId, email := normEmail email, password_hash := none,
          name := name, provider := provider, provider_id := some providerId,
          avatar_url := avatarUrl, marketing_agree := false,
          email_verified := true, status := "active",
          created_at := now, updated_at := now, last_login_at := none }
      (fresh, { db with users := db.users ++ [fresh] })

/-- `onRequestGet` of the google callback: config guard, provider `error`
guard, missing-`code` guard, then the CSRF state check against the
`oauth_state` cookie — all before the token exchange, the profile fetch and
session creation. -/
def googleCallback (cfg : OAuthConfig) (req : CallbackRequest) (o : GoogleOracle)
    (db : DB) (sid tok : String) (now : Nat) : CbResult :=
  if isFalsyStr cfg.clientId || isFalsyStr cfg.clientSecret then
    { status := 302, location := some (req.origin ++ "/index.html?error=구글 로그인이 설정되지 않았습니다."),
      cookie := none, fetches := [], db := db }
  else if req.error.isSome then
    { status := 302, location := some (req.origin ++ "/index.html?error=구글 로그인이 취소되었습니다."),
      cookie := none, fetches := [], db := db }
  else if isFalsyStr req.code then
    { status := 302, location := some (req.origin ++ "/index.html?error=인증 코드를 받지 못했습니다."),
      cookie := none, fetches := [], db := db }
  else if isFalsyStr req.state || req.state ≠ oauthStateFromCookie req.cookie then
    { status := 302, location := some (req.origin ++ "/index.html?error=보안 검증에 실패했습니다."),
      cookie := none, fetches := [], db := db }
  else if ¬ o.tokenOk then
    { status := 302, location := some (req.origin ++ "/index.html?error=구글 인증에 실패했습니다."),
      cookie := none, fetches := [FetchCall.tokenExchange], db := db }
  else if ¬ o.userInfoOk then
    { status := 302, location := some (req.origin ++ "/index.html?error=사용자 정보를 가져오지 못했습니다."),
      cookie := none, fetches := [FetchCall.tokenExchange, FetchCall.profileFetch], db := db }
  else
    let fallbackName := String.mk (o.googleEmail.data.takeWhile (fun c => c ≠ '@'))
    let userAndDb := createOrGetSocialUser db now "google" o.googleId o.googleEmail
      (o.googleName.getD fallbackName) o.googlePicture
    let sessionAndDb := createSession userAndDb.2 now sid tok userAndDb.1.id 30
    { status := 302, location := some (req.origin ++ "/main.html"),
      cookie := some
        { name := "session", value := sessionAndDb.1, httpOnly := true,
          secure := true, sameSite := "Lax", path := "/", maxAge := 30 * 24 * 60 * 60 },
      fetches := [FetchCall.tokenExchange, FetchCall.profileFetch], db := sessionAndDb.2 }

/-- `onRequestGet` of the kakao callback: same guard sequence as google,
plus the falsy-access-token and missing-`id` rejections, with the kakao
field fallbacks (`{id}@kakao.temp` placeholder email, nickname fallbacks). -/
def kakaoCallback (cfg : OAuthConfig) (req : CallbackRequest) (o : KakaoOracle)
    (db : DB) (sid tok : String) (now : Nat) : CbResult :=
  if isFalsyStr cfg.clientId || isFalsyStr cfg.clientSecret then
    { status := 302, location := some (req.origin ++ "/index.html?error=카카오 로그인이 설정되지 않았습니다."),
      cookie := none, fetches := [], db := db }
  else if req.error.isSome then
    { status := 302, location := some (req.origin ++ "/index.html?error=카카오 로그인이 취소되었습니다."),
      cookie := none, fetches := [], db := db }
  else if isFalsyStr req.code then
    { status := 302, location := some (req.origin ++ "/index.html?error=인증 코드를 받지 못했습니다."),
      cookie := none, fetches := [], db := db }
  else if isFalsyStr req.state || req.state ≠ oauthStateFromCookie req.cookie then
    { status := 302, location := some (req.origin ++ "/index.html?error=보안 검증에 실패했습니다."),
      cookie := none, fetches := [], db := db }
  else if ¬ o.tokenOk then
    { status := 302, location := some (req.origin ++ "/index.html?error=카카오 인증에 실패했습니다."),
      cookie := none, fetches := [FetchCall.tokenExchange], db := db }
  else if isFalsyStr o.accessToken then
    { status := 302, location := some (req.origin ++ "/index.html?error=액세스 토큰을 받지 못했습니다."),
      cookie := none, fetches := [FetchCall.tokenExchange], db := db }
  else if ¬ o.userInfoOk then
    { status := 302, location := some (req.origin ++ "/index.html?error=사용자 정보를 가져오지 못했습니다."),
      cookie := none, fetches := [FetchCall.tokenExchange, FetchCall.profileFetch], db := db }
  else
    match o.kakaoId with
    | none =>
      { status := 302, location := some (req.origin ++ "/index.html?error=사용자 정보를 가져오지 못했습니다."),
        cookie := none, fetches := [FetchCall.tokenExchange, FetchCall.profileFetch], db := db }
    | some kid =>
      let email := (o.kakaoEmail.getD (kid ++ "@kakao.temp"))
      let name := o.kakaoNickname.getD (o.kakaoAccountName.getD
        ("카카오사용자" ++ String.mk (kid.data.drop (kid.length - 4))))
      let userAndDb := createOrGetSocialUser db now "kakao" kid email name
        o.kakaoProfileImageUrl
      let sessionAndDb := createSession userAndDb.2 now sid tok userAndDb.1.id 30
      { status := 302, location := some (req.origin ++ "/main.html"),
        cookie := some
          { name := "session", value := sessionAndDb.1, httpOnly := true,
            secure := true, sameSite := "Lax", path := "/", maxAge := 30 * 24 * 60 * 60 },
        fetches := [FetchCall.tokenExchange, FetchCall.profileFetch], db := sessionAndDb.2 }

/-- A store whose session query throws, for the C10 witness. -/
def throwingStore : Store :=
  { querySession := fun _ => Except.error "db down"
    queryUser := fun _ => Except.ok none }

/-- Concrete social-login user (no password credential) for the C2 witness. -/
def socialUser : UserRow :=
  { id := 2
    email := "soc@example.com"
    password_hash := none
    name := "Soc"
    provider := "kakao"
    provider_id := some "k1"
    avatar_url := none
    marketing_agree := false
    email_verified := true
    status := "active"
    created_at := 0
    updated_at := 0
    last_login_at := none }

/-- Concrete database holding only the social user. -/
def socialDB : DB := { users := [socialUser], sessions := [] }

/-- Second concrete session row for `demoUser` (C5 scenario). -/
def demoSession2 : SessionRow :=
  { id := "s2", user_id := 1, token := "t2",
    expires_at := isoString (30 * 86400), created_at := 0 }

/-- Concrete database with one active user and two live sessions. -/
def twoSessionDB : DB := { users := [demoUser], sessions := [demoSession, demoSession2] }

/-- A well-formed password-change request body (no name change). -/
def pwChangeBody : ProfileBody :=
  { name := none
    currentPassword := some "oldpass1"
    newPassword := some "newpass123"
    newPasswordConfirm := some "newpass123" }

/-- Empty database for the C7 witness. -/
def emptyDB : DB := { users := [], sessions := [] }

/-- First signup data for the C7 witness (mixed-case, trailing-space email). -/
def dupData1 : NewUserData :=
  { name := "Ann", email := "A@Ex.COM ", passwordHash := "h1", marketingAgree := false }

/-- Second signup data for the C7 witness (same email after normalization). -/
def dupData2 : NewUserData :=
  { name := "Ann2", email := "a@ex.com", passwordHash := "h2", marketingAgree := true }

/-- The row the first C7 signup creates. -/
def dupRow : UserRow :=
  { id := 1
    email := "a@ex.com"
    password_hash := some "h1"
    name := "Ann"
    provider := "email"
    provider_id := none
    avatar_url := none
    marketing_agree := false
    email_verified := false
    status := "active"
    created_at := 10
    updated_at := 10
    last_login_at := none }

/-- The database after the first C7 signup. -/
def dupDB1 : DB := { users := [dupRow], sessions := [] }

/-- Concrete callback request whose `state` differs from the cookie nonce. -/
def mismatchReq : CallbackRequest :=
  { origin := "https://app", code := some "c", state := some "x",
    error := none, cookie := "oauth_state=y" }

/-- Concrete provider configuration (both credentials present). -/
def oauthCfgW : OAuthConfig := { clientId := some "cid", clientSecret := some "sec" }

/-- Concrete google oracle that would succeed if reached. -/
def googleOracleW : GoogleOracle :=
  { tokenOk := true, accessToken := some "at", userInfoOk := true,
    googleId := "g1", googleEmail := "g@x.com", googleName := none,
    googlePicture := none }

/-- Concrete kakao oracle that would succeed if reached. -/
def kakaoOracleW : KakaoOracle :=
  { tokenOk := true, accessToken := some "at", userInfoOk := true,
    kakaoId := some "12345678", kakaoEmail := none, kakaoNickname := some "Nick",
    kakaoAccountName := none, kakaoProfileImageUrl := none }

/-- Session row whose expiry (timestamp 3600, 01:00 UTC on day 0) has
already passed by midday of the same UTC day. -/
def staleSession : SessionRow :=
  { id := "sStale", user_id := 1, token := "tS",
    expires_at := isoString 3600, created_at := 0 }

/-- Database with one active user and the same-day-expired session. -/
def staleDB : DB := { users := [demoUser], sessions := [staleSession] }

/-! ## Theorems -/

/-- C1 (code bug). The claim requires `verifySession` to return `none`
whenever `expires_at ≤ now`, but `createSession` stores the expiry as
`toISOString()` TEXT (`YYYY-MM-DDTHH:MM:SS.000Z`) while the query compares
it against `datetime("now")` (`YYYY-MM-DD HH:MM:SS`) under binary TEXT
collation: when the dates are equal, the `T` at index 10 beats the space,
so a session that expired earlier the same UTC day still passes the filter.
Concretely: an expiry at timestamp 3600 (01:00 UTC) has passed by
`now = 43200` (12:00 UTC, same day), yet the owning user is returned; only
from the next UTC day (`now = 129600`) on is the session rejected. -/
theorem verifySession_same_day_expiry_not_rejected :
    staleSession.expires_at = isoString 3600 ∧
    isoString 3600 = "1970-01-01T01:00:00.000Z" ∧
    sqliteNow 43200 = "1970-01-01 12:00:00" ∧
    (3600 : Nat) ≤ 43200 ∧
    verifySession staleDB 43200 "sStale" = some (publicProj demoUser) ∧
    verifySession staleDB 129600 "sStale" = none := by
  exact ⟨rfl, by decide, by decide, by decide, by decide, by decide⟩

/-- C10. `verifySession` never propagates an exception: whenever the body
throws (any underlying query error), the exported function returns `none`
(fail closed); whenever the body completes, its value is returned unchanged;
and over a non-throwing store it agrees with the pure `verifySession`. -/
theorem verifySession_fails_closed (st : Store) (sid : String) (db : DB) (now : Nat) :
    (∀ e, verifySessionTry st sid = Except.error e →
      verifySessionCaught st sid = none) ∧
    (∀ r, verifySessionTry st sid = Except.ok r → verifySessionCaught st sid = r) ∧
    verifySessionCaught (storeOfDB db now) sid = verifySession db now sid := by
  refine ⟨fun e he => by simp [verifySessionCaught, he],
          fun r hr => by simp [verifySessionCaught, hr], ?_⟩
  unfold verifySessionCaught verifySessionTry verifySession storeOfDB
  rcases eq_or_ne sid "" with he | he
  · simp [he]
  · simp only [if_neg he]
    cases hfind : db.sessions.find? (fun s =>
        s.id == sid && sqlTextLt (sqliteNow now) s.expires_at) with
    | none => simp [hfind]
    | some s =>
      cases hfindu : db.users.find? (fun u => u.id == s.user_id) with
      | none => simp [hfind, hfindu]
      | some u =>
        by_cases hstat : u.status = "active" <;> simp [hfind, hfindu, hstat]

/-- Witness for C10: a thrown store error is swallowed into `none`, and over
the concrete `demoDB` the caught function agrees with the pure one. -/
theorem verifySession_fails_closed_witness :
    verifySessionCaught throwingStore "s1" = none ∧
    verifySessionCaught (storeOfDB demoDB 100) "s1" = verifySession demoDB 100 "s1" :=
  ⟨(verifySession_fails_closed throwingStore "s1" demoDB 100).1 "db down" rfl,
   (verifySession_fails_closed throwingStore "s1" demoDB 100).2.2⟩

/-- Facts about the produced hex digit characters, for all sixteen values. -/
theorem hexDigit_props : ∀ n < 16,
    hexDigit n ≠ ':' ∧ hexDigit n ≠ '\n' ∧ hexDigit n ≠ 'x' ∧ hexDigit n ≠ 'X' ∧
    hexDigit n ≠ '+' ∧ hexDigit n ≠ '-' ∧ jsSpace (hexDigit n) = false ∧
    isHexDigitChar (hexDigit n) = true ∧ hexVal (hexDigit n) = n := by decide

/-- `splitOnColon` never returns the empty list. -/
theorem splitOnColon_ne_nil (cs : List Char) : splitOnColon cs ≠ [] := by
  induction cs with
  | nil => simp [splitOnColon]
  | cons c rest ih =>
    unfold splitOnColon
    by_cases h : c = ':'
    · simp [h]
    · simp only [if_neg h]
      cases hs : splitOnColon rest with
      | nil => simp
      | cons p ps => simp

/-- Splitting `a ++ ':' :: b` when `a` is colon-free peels off `a`. -/
theorem splitOnColon_append (a b : List Char) (ha : ∀ c ∈ a, c ≠ ':') :
    splitOnColon (a ++ ':' :: b) = a :: splitOnColon b := by
  induction a with
  | nil => simp [splitOnColon]
  | cons c a ih =>
    have hc : c ≠ ':' := ha c (by simp)
    have ih2 := ih (fun d hd => ha d (by simp [hd]))
    show splitOnColon (c :: (a ++ ':' :: b)) = (c :: a) :: splitOnColon b
    rw [splitOnColon, if_neg hc, ih2]

/-- Splitting a colon-free list yields the single field. -/
theorem splitOnColon_no_colon (a : List Char) (ha : ∀ c ∈ a, c ≠ ':') :
    splitOnColon a = [a] := by
  induction a with
  | nil => simp [splitOnColon]
  | cons c a ih =>
    have hc : c ≠ ':' := ha c (by simp)
    have ih2 := ih (fun d hd => ha d (by simp [hd]))
    unfold splitOnColon
    simp [if_neg hc, ih2]

/-- The chunk list is empty exactly when every character is a newline. -/
theorem matchChunks2_eq_nil_iff (cs : List Char) :
    matchChunks2 cs = [] ↔ ∀ c ∈ cs, c = '\n' := by
  induction cs with
  | nil => simp [matchChunks2]
  | cons c rest ih =>
    unfold matchChunks2
    by_cases h : c = '\n'
    · simp [h, ih]
    · simp only [if_neg h]
      cases rest with
      | nil => simp [h]
      | cons d rest2 =>
        by_cases hd : d = '\n' <;> simp [hd, h]

/-- Chunking the hex encoding of a byte list recovers the per-byte pairs. -/
theorem matchChunks2_bytesToHexChars (bs : List Nat) (hb : ∀ b ∈ bs, b < 256) :
    matchChunks2 (bytesToHexChars bs) = bs.map byteHexChars := by
  induction bs with
  | nil => simp [bytesToHexChars, matchChunks2]
  | cons b bs ih =>
    have hblt : b < 256 := hb b (by simp)
    obtain ⟨-, h2, -, -, -, -, -, -, -⟩ := hexDigit_props (b / 16) (by omega)
    obtain ⟨-, g2, -, -, -, -, -, -, -⟩ := hexDigit_props (b % 16) (by omega)
    have ih2 := ih (fun x hx => hb x (by simp [hx]))
    have hexpand : bytesToHexChars (b :: bs) =
        hexDigit (b / 16) :: hexDigit (b % 16) :: bytesToHexChars bs := by
      simp [bytesToHexChars, byteHexChars]
    rw [hexpand]
    unfold matchChunks2
    simp [if_neg h2, if_neg g2, ih2, byteHexChars]

/-- `parseInt(chunk, 16)` inverts the two-digit hex encoding of a byte. -/
theorem parseIntHex_byteHexChars (b : Nat) (hb : b < 256) :
    parseIntHex (byteHexChars b) = some ((b : Int)) := by
  obtain ⟨-, -, -, -, h5, h6, h7, h8, h9⟩ := hexDigit_props (b / 16) (by omega)
  obtain ⟨-, -, g3, g4, -, -, -, g8, g9⟩ := hexDigit_props (b % 16) (by omega)
  have hdrop : (byteHexChars b).dropWhile jsSpace = byteHexChars b := by
    simp [byteHexChars, List.dropWhile, h7]
  have hstrip : strip0x (byteHexChars b) = byteHexChars b := by
    simp [byteHexChars, strip0x, g3, g4]
  unfold parseIntHex
  rw [hdrop]
  have hhead : (byteHexChars b).headD ' ' = hexDigit (b / 16) := by simp [byteHexChars]
  rw [hhead, if_neg h5, if_neg h6, hstrip]
  unfold hexPrefixVal
  have htake : (byteHexChars b).takeWhile isHexDigitChar = byteHexChars b := by
    simp [byteHexChars, List.takeWhile, h8, g8]
  rw [htake]
  simp only [byteHexChars, List.isEmpty_cons, List.foldl_cons, List.foldl_nil,
    Bool.false_eq_true, if_false, Option.map_some', Option.some.injEq]
  rw [h9, g9]
  have hval : (0 * 16 + b / 16) * 16 + b % 16 = b := by omega
  rw [hval]
  simp

/-- Length of the hex encoding: two characters per byte. -/
theorem bytesToHexChars_length (bs : List Nat) :
    (bytesToHexChars bs).length = 2 * bs.length := by
  induction bs with
  | nil => simp [bytesToHexChars]
  | cons b bs ih =>
    simp only [bytesToHexChars, List.map_cons, List.flatten_cons] at ih ⊢
    simp [byteHexChars, ih]
    omega

/-- Hex encodings of bytes contain no colon. -/
theorem bytesToHexChars_no_colon (bs : List Nat) (hb : ∀ b ∈ bs, b < 256) :
    ∀ c ∈ bytesToHexChars bs, c ≠ ':' := by
  intro c hc
  simp only [bytesToHexChars, List.mem_flatten, List.mem_map] at hc
  obtain ⟨l, ⟨b, hbmem, rfl⟩, hcl⟩ := hc
  have hblt : b < 256 := hb b hbmem
  obtain ⟨h1, -, -, -, -, -, -, -, -⟩ := hexDigit_props (b / 16) (by omega)
  obtain ⟨g1, -, -, -, -, -, -, -, -⟩ := hexDigit_props (b % 16) (by omega)
  simp only [byteHexChars, List.mem_cons, List.mem_singleton] at hcl
  rcases hcl with rfl | rfl | h
  · exact h1
  · exact g1
  · simp at h

/-- Decoding (chunk + parse + byte-store) inverts the hex encoding. -/
theorem decode_bytesToHexChars (bs : List Nat) (hb : ∀ b ∈ bs, b < 256) :
    (matchChunks2 (bytesToHexChars bs)).map (fun c => toUint8 (parseIntHex c)) = bs := by
  rw [matchChunks2_bytesToHexChars bs hb, List.map_map]
  have hpt : ∀ b ∈ bs, toUint8 (parseIntHex (byteHexChars b)) = b := by
    intro b hbb
    have hlt : b < 256 := hb b hbb
    rw [parseIntHex_byteHexChars b hlt]
    show (((b : Int)) % 256).toNat = b
    omega
  calc bs.map (fun b => toUint8 (parseIntHex (byteHexChars b)))
      = bs.map id := List.map_congr_left hpt
    _ = bs := List.map_id bs

/-- Verification succeeds on any hash produced by `hashPassword` with a
non-empty salt of bytes (the source salt is sixteen `Uint8` values). -/
theorem verify_of_hashPassword (kdf : List Nat → List Nat → List Nat)
    (salt pw : List Nat) (hb : ∀ b ∈ salt, b < 256) (hne : salt ≠ []) :
    verifyPasswordRun kdf pw (hashPassword kdf salt pw) = Except.ok true := by
  set D := (kdf (salt ++ pw) salt).map (fun b => b % 256) with hDdef
  have hD : ∀ b ∈ D, b < 256 := by
    intro b hb2
    simp only [hDdef, List.mem_map] at hb2
    obtain ⟨x, -, rfl⟩ := hb2
    exact Nat.mod_lt x (by omega)
  have hdata : (hashPassword kdf salt pw).data =
      bytesToHexChars salt ++ ':' :: bytesToHexChars D := by
    simp [hashPassword, bytesToHex, String.data_append, hDdef]
  have hsplit : splitOnColon (hashPassword kdf salt pw).data =
      [bytesToHexChars salt, bytesToHexChars D] := by
    rw [hdata, splitOnColon_append _ _ (bytesToHexChars_no_colon salt hb),
      splitOnColon_no_colon _ (bytesToHexChars_no_colon D hD)]
  have hchunks : matchChunks2 (bytesToHexChars salt) = salt.map byteHexChars :=
    matchChunks2_bytesToHexChars salt hb
  obtain ⟨p, ps, hmap⟩ : ∃ p ps, salt.map byteHexChars = p :: ps := by
    cases hm : salt.map byteHexChars with
    | nil => exact absurd (List.map_eq_nil_iff.mp hm) hne
    | cons p ps => exact ⟨p, ps, rfl⟩
  have hdecode : (p :: ps).map (fun c => toUint8 (parseIntHex c)) = salt := by
    rw [← hmap, ← hchunks]
    exact decode_bytesToHexChars salt hb
  simp only [verifyPasswordRun, jsMatchChunks, hsplit, List.headD_cons,
    hchunks, hmap, hdecode]
  simp [hDdef]

/-- C3. For every key-derivation function, password and pair of distinct
fresh 16-byte salts: hashing verifies against the original password, with
either salt, and the two encoded `saltHex:hashHex` strings differ. -/
theorem hashPassword_verify_roundtrip (kdf : List Nat → List Nat → List Nat)
    (pw s1 s2 : List Nat)
    (h1 : ∀ b ∈ s1, b < 256) (hl1 : s1.length = 16)
    (h2 : ∀ b ∈ s2, b < 256) (hl2 : s2.length = 16)
    (hne : s1 ≠ s2) :
    verifyPasswordRun kdf pw (hashPassword kdf s1 pw) = Except.ok true ∧
    verifyPasswordRun kdf pw (hashPassword kdf s2 pw) = Except.ok true ∧
    hashPassword kdf s1 pw ≠ hashPassword kdf s2 pw := by
  refine ⟨verify_of_hashPassword kdf s1 pw h1 (by intro h; simp [h] at hl1),
          verify_of_hashPassword kdf s2 pw h2 (by intro h; simp [h] at hl2), ?_⟩
  intro heq
  have hdata := congrArg String.data heq
  have hd1 : (hashPassword kdf s1 pw).data =
      bytesToHexChars s1 ++ ':' :: bytesToHexChars ((kdf (s1 ++ pw) s1).map (fun b => b % 256)) := by
    simp [hashPassword, bytesToHex, String.data_append]
  have hd2 : (hashPassword kdf s2 pw).data =
      bytesToHexChars s2 ++ ':' :: bytesToHexChars ((kdf (s2 ++ pw) s2).map (fun b => b % 256)) := by
    simp [hashPassword, bytesToHex, String.data_append]
  rw [hd1, hd2] at hdata
  have hlen : (bytesToHexChars s1).length = (bytesToHexChars s2).length := by
    rw [bytesToHexChars_length, bytesToHexChars_length, hl1, hl2]
  have hpre : bytesToHexChars s1 = bytesToHexChars s2 :=
    (List.append_inj hdata hlen).1
  have hmap := congrArg (List.map (fun c => toUint8 (parseIntHex c)))
    ((matchChunks2_bytesToHexChars s1 h1).symm.trans
      ((congrArg matchChunks2 hpre).trans (matchChunks2_bytesToHexChars s2 h2)))
  rw [List.map_map, List.map_map] at hmap
  have e1 : s1.map (fun b => toUint8 (parseIntHex (byteHexChars b))) = s1 := by
    have := decode_bytesToHexChars s1 h1
    rwa [matchChunks2_bytesToHexChars s1 h1, List.map_map] at this
  have e2 : s2.map (fun b => toUint8 (parseIntHex (byteHexChars b))) = s2 := by
    have := decode_bytesToHexChars s2 h2
    rwa [matchChunks2_bytesToHexChars s2 h2, List.map_map] at this
  exact hne ((e1.symm.trans hmap).trans e2)

/-- Witness for C3: the identity derivation, password bytes `hi`, and two
distinct concrete 16-byte salts. -/
theorem hashPassword_verify_roundtrip_witness :
    verifyPasswordRun (fun k _ => k) [104, 105]
        (hashPassword (fun k _ => k) (List.replicate 16 0) [104, 105]) = Except.ok true ∧
    verifyPasswordRun (fun k _ => k) [104, 105]
        (hashPassword (fun k _ => k) (List.replicate 16 1) [104, 105]) = Except.ok true ∧
    hashPassword (fun k _ => k) (List.replicate 16 0) [104, 105] ≠
      hashPassword (fun k _ => k) (List.replicate 16 1) [104, 105] :=
  hashPassword_verify_roundtrip (fun k _ => k) [104, 105] (List.replicate 16 0)
    (List.replicate 16 1) (by decide) (by decide) (by decide) (by decide) (by decide)

/-- C4 counterexample: on the malformed stored hash `":aa"` (empty salt
field, a legal wrong-field-content case of the claim) `verifyPassword` does
not return false — it throws: `"".match(/.{1,2}/g)` is `null` and the code
calls `.map` on it. -/
theorem verifyPassword_throws_on_empty_salt_field :
    verifyPasswordRun (fun k _ => k) [97] ":aa" =
      Except.error "TypeError: null.map" := by
  rfl

/-- C4 (amended). If the salt field (the text before the first `:`) contains
at least one non-newline character then `verifyPassword` never throws — it
returns a boolean, and in particular returns `false` when the string contains
no `:` at all (missing hash field); but when the salt field is empty or all
newlines the call throws the `TypeError` instead of returning false. -/
theorem verifyPassword_malformed (kdf : List Nat → List Nat → List Nat)
    (pw : List Nat) (hash : String) :
    ((∃ c ∈ (splitOnColon hash.data).headD [], c ≠ '\n') →
      ∃ b : Bool, verifyPasswordRun kdf pw hash = Except.ok b) ∧
    ((∀ c ∈ (splitOnColon hash.data).headD [], c = '\n') →
      verifyPasswordRun kdf pw hash = Except.error "TypeError: null.map") ∧
    ((∀ c ∈ hash.data, c ≠ ':') → (∃ c ∈ hash.data, c ≠ '\n') →
      verifyPasswordRun kdf pw hash = Except.ok false) := by
  refine ⟨?_, ?_, ?_⟩
  · intro hex
    obtain ⟨c0, hc0, hcne⟩ := hex
    have hmc : matchChunks2 ((splitOnColon hash.data).headD []) ≠ [] := by
      rw [Ne, matchChunks2_eq_nil_iff]
      intro hall
      exact hcne (hall c0 hc0)
    cases hmcc : matchChunks2 ((splitOnColon hash.data).headD []) with
    | nil => exact absurd hmcc hmc
    | cons p ps =>
      simp only [verifyPasswordRun, jsMatchChunks, hmcc]
      exact ⟨_, rfl⟩
  · intro hall
    have hmcc : matchChunks2 ((splitOnColon hash.data).headD []) = [] :=
      (matchChunks2_eq_nil_iff _).mpr hall
    simp only [verifyPasswordRun, jsMatchChunks, hmcc]
  · intro hnc hex
    have hsp : splitOnColon hash.data = [hash.data] := splitOnColon_no_colon _ hnc
    obtain ⟨c0, hc0, hcne⟩ := hex
    have hmc : matchChunks2 hash.data ≠ [] := by
      rw [Ne, matchChunks2_eq_nil_iff]
      intro hall
      exact hcne (hall c0 hc0)
    cases hmcc : matchChunks2 hash.data with
    | nil => exact absurd hmcc hmc
    | cons p ps => simp [verifyPasswordRun, jsMatchChunks, hsp, hmcc]

/-- Witness for the amended C4: a colon-free hash gives `false` without
throwing; an all-newline salt field throws. -/
theorem verifyPassword_malformed_witness :
    verifyPasswordRun (fun k _ => k) [97] "zz" = Except.ok false ∧
    verifyPasswordRun (fun k _ => k) [97] "\n:aa" =
      Except.error "TypeError: null.map" :=
  ⟨(verifyPassword_malformed (fun k _ => k) [97] "zz").2.2 (by decide) (by decide),
   (verifyPassword_malformed (fun k _ => k) [97] "\n:aa").2.1 (by decide)⟩

/-- C2. When a password-login request reaches the user lookup (email and
password both supplied) and the looked-up user has no password credential,
the handler responds 403 with `isSocialLogin:true` and the user's provider
tag, sets no session cookie, leaves the database unchanged (so no session is
created), and in particular does not respond 401. -/
theorem social_user_password_login_403 (db : DB) (body : LoginBody)
    (verifyPw : String → String → Except String Bool)
    (sid tok : String) (now : Nat) (u : AuthUser)
    (hemail : isFalsyStr body.email = false)
    (hpw : isFalsyStr body.password = false)
    (hu : getUserByEmail db (body.email.getD "") = some u)
    (hnopw : u.password_hash = none) :
    (loginPost db body verifyPw sid tok now).1.status = 403 ∧
    (loginPost db body verifyPw sid tok now).1.isSocialLogin = true ∧
    (loginPost db body verifyPw sid tok now).1.provider = some u.provider ∧
    (loginPost db body verifyPw sid tok now).1.cookie = none ∧
    (loginPost db body verifyPw sid tok now).2 = db ∧
    (loginPost db body verifyPw sid tok now).1.status ≠ 401 := by
  simp [loginPost, hemail, hpw, hu, hnopw,
    show isFalsyStr (none : Option String) = true from rfl]

/-- Witness for C2: the concrete kakao-born user without a password hash,
attempting a password login. -/
theorem social_user_password_login_403_witness :
    (loginPost socialDB
        { email := some "soc@example.com", password := some "whatever1", keepLogin := false }
        (fun _ _ => Except.ok true) "sX" "tX" 100).1.status = 403 ∧
    (loginPost socialDB
        { email := some "soc@example.com", password := some "whatever1", keepLogin := false }
        (fun _ _ => Except.ok true) "sX" "tX" 100).1.isSocialLogin = true ∧
    (loginPost socialDB
        { email := some "soc@example.com", password := some "whatever1", keepLogin := false }
        (fun _ _ => Except.ok true) "sX" "tX" 100).1.provider =
      some (authProj socialUser).provider ∧
    (loginPost socialDB
        { email := some "soc@example.com", password := some "whatever1", keepLogin := false }
        (fun _ _ => Except.ok true) "sX" "tX" 100).1.cookie = none ∧
    (loginPost socialDB
        { email := some "soc@example.com", password := some "whatever1", keepLogin := false }
        (fun _ _ => Except.ok true) "sX" "tX" 100).2 = socialDB ∧
    (loginPost socialDB
        { email := some "soc@example.com", password := some "whatever1", keepLogin := false }
        (fun _ _ => Except.ok true) "sX" "tX" 100).1.status ≠ 401 :=
  social_user_password_login_403 socialDB
    { email := some "soc@example.com", password := some "whatever1", keepLogin := false }
    (fun _ _ => Except.ok true) "sX" "tX" 100 (authProj socialUser)
    (by decide) (by decide) (by decide) (by decide)

/-- C9. On every successful password login the session cookie is the
`session` cookie carrying the fresh session id with Max-Age `604800` seconds
when `keepLogin` is false and `2592000` when true; the same day count (7 or
30) reaches `createSession`, whose stored row expires `days * 86400` seconds
from now — the very number of seconds the cookie lives. -/
theorem login_cookie_max_age_matches_ttl (db : DB) (body : LoginBody)
    (verifyPw : String → String → Except String Bool)
    (sid tok : String) (now : Nat) (u : AuthUser)
    (hemail : isFalsyStr body.email = false)
    (hpw : isFalsyStr body.password = false)
    (hu : getUserByEmail db (body.email.getD "") = some u)
    (hhash : isFalsyStr u.password_hash = false)
    (hstat : u.status = "active")
    (hverify : verifyPw (body.password.getD "") (u.password_hash.getD "") =
      Except.ok true) :
    (loginPost db body verifyPw sid tok now).1.status = 200 ∧
    ((loginPost db body verifyPw sid tok now).1.cookie =
      some { name := "session", value := sid, httpOnly := true, secure := true,
             sameSite := "Lax", path := "/",
             maxAge := if body.keepLogin then 2592000 else 604800 }) ∧
    ((loginPost db body verifyPw sid tok now).2.sessions = db.sessions ++
      [{ id := sid, user_id := u.id, token := tok,
         expires_at := isoString (now + (if body.keepLogin then 30 else 7) * 86400),
         created_at := now }]) ∧
    (if body.keepLogin then 2592000 else 604800) =
      (if body.keepLogin then 30 else 7) * 86400 := by
  cases hk : body.keepLogin <;>
    simp [loginPost, hemail, hpw, hu, hhash, hstat, hverify, hk,
      createSession, updateLastLogin]

/-- Witness for C9: `demoUser` logs in with `keepLogin` set; the cookie
lives 2592000 seconds and the stored session expires 30 days out. -/
theorem login_cookie_max_age_matches_ttl_witness :
    (loginPost demoDB
        { email := some "ann@example.com", password := some "longenough1", keepLogin := true }
        (fun _ _ => Except.ok true) "sN" "tN" 1000).1.status = 200 ∧
    ((loginPost demoDB
        { email := some "ann@example.com", password := some "longenough1", keepLogin := true }
        (fun _ _ => Except.ok true) "sN" "tN" 1000).1.cookie =
      some { name := "session", value := "sN", httpOnly := true, secure := true,
             sameSite := "Lax", path := "/", maxAge := 2592000 }) ∧
    ((loginPost demoDB
        { email := some "ann@example.com", password := some "longenough1", keepLogin := true }
        (fun _ _ => Except.ok true) "sN" "tN" 1000).2.sessions = demoDB.sessions ++
      [{ id := "sN", user_id := (authProj demoUser).id, token := "tN",
         expires_at := isoString (1000 + 30 * 86400), created_at := 1000 }]) ∧
    (2592000 : Nat) = 30 * 86400 := by
  have h := login_cookie_max_age_matches_ttl demoDB
    { email := some "ann@example.com", password := some "longenough1", keepLogin := true }
    (fun _ _ => Except.ok true) "sN" "tN" 1000 (authProj demoUser)
    (by decide) (by decide) (by decide) (by decide) (by decide) rfl
  exact ⟨h.1, by simpa using h.2.1, by simpa using h.2.2.1, by decide⟩

/-- Over a list whose prefix contains no match, `find?` searches the suffix. -/
theorem find?_append_of_no_match {α : Type} {l1 l2 : List α} {p : α → Bool}
    (h : ∀ x ∈ l1, p x = false) :
    (l1 ++ l2).find? p = l2.find? p := by
  induction l1 with
  | nil => rfl
  | cons a l ih =>
    have ha : p a = false := h a (by simp)
    simp only [List.cons_append, List.find?_cons, ha, cond_false]
    exact ih (fun x hx => h x (by simp [hx]))

/-- `createUser` succeeds exactly when the underlying insert does. -/
theorem createUser_ok_iff (db : DB) (now : Nat) (d : NewUserData) (r : Nat × DB) :
    createUser db now d = Except.ok r ↔ insertUserRow db now d = Except.ok r := by
  unfold createUser
  cases hi : insertUserRow db now d with
  | ok x => simp
  | error msg =>
    constructor
    · intro hcc
      by_cases hj : jsIncludes msg "UNIQUE constraint failed" = true
      · exact absurd hcc (by simp [hj])
      · exact absurd hcc (by simp [hj])
    · intro hcc
      exact absurd hcc (by simp)

/-- C7. Email normalization makes case/whitespace variants collide: after a
successful `createUser` with one email, `createUser` with any email that
normalizes to the same value fails with the distinct duplicate-email error,
the existence check sees the address under either spelling, and a lookup with
either string finds the same freshly created user. -/
theorem email_normalization_duplicate (db : DB) (now1 now2 : Nat)
    (d1 d2 : NewUserData) (hnorm : normEmail d1.email = normEmail d2.email)
    (id1 : Nat) (db1 : DB)
    (hc : createUser db now1 d1 = Except.ok (id1, db1)) :
    createUser db1 now2 d2 = Except.error "이미 가입된 이메일입니다." ∧
    checkEmailExists db1 d1.email = true ∧
    checkEmailExists db1 d2.email = true ∧
    getUserByEmail db1 d1.email = getUserByEmail db1 d2.email ∧
    (∃ u, getUserByEmail db1 d1.email = some u ∧ u.id = id1 ∧
      u.email = normEmail d1.email) := by
  have hins : insertUserRow db now1 d1 = Except.ok (id1, db1) :=
    (createUser_ok_iff db now1 d1 (id1, db1)).mp hc
  unfold insertUserRow at hins
  by_cases hany : db.users.any (fun u => u.email == normEmail d1.email) = true
  · rw [if_pos hany] at hins
    exact absurd hins (by simp)
  · rw [if_neg hany] at hins
    have hanyf : db.users.any (fun u => u.email == normEmail d1.email) = false := by
      revert hany
      cases db.users.any (fun u => u.email == normEmail d1.email) <;> simp
    have hall : ∀ u ∈ db.users, (u.email == normEmail d1.email) = false := by
      intro u hu
      have hne := List.any_eq_false.mp hanyf u hu
      revert hne
      cases u.email == normEmail d1.email <;> simp
    have hpair := Except.ok.inj hins
    have hid : (db.users.map UserRow.id).foldr max 0 + 1 = id1 :=
      congrArg Prod.fst hpair
    have hdb : db1 = { db with users := db.users ++
        [{ id := (db.users.map UserRow.id).foldr max 0 + 1
           email := normEmail d1.email
           password_hash := some d1.passwordHash
           name := jsTrim d1.name
           provider := "email"
           provider_id := none
           avatar_url := none
           marketing_agree := d1.marketingAgree
           email_verified := false
           status := "active"
           created_at := now1
           updated_at := now1
           last_login_at := none }] } := (congrArg Prod.snd hpair).symm
    have hfind1 : db1.users.find? (fun u => u.email == normEmail d1.email) =
        some { id := (db.users.map UserRow.id).foldr max 0 + 1
               email := normEmail d1.email
               password_hash := some d1.passwordHash
               name := jsTrim d1.name
               provider := "email"
               provider_id := none
               avatar_url := none
               marketing_agree := d1.marketingAgree
               email_verified := false
               status := "active"
               created_at := now1
               updated_at := now1
               last_login_at := none } := by
      rw [hdb]
      show (db.users ++ [_]).find? _ = _
      rw [find?_append_of_no_match hall]
      simp
    refine ⟨?_, ?_, ?_, ?_, ?_⟩
    · have hg1 : insertUserRow db1 now2 d2 =
          Except.error "UNIQUE constraint failed: users.email" := by
        unfold insertUserRow
        have hany2 : db1.users.any (fun u => u.email == normEmail d2.email) = true := by
          rw [hdb]
          simp [List.any_append, ← hnorm]
        rw [if_pos hany2]
      unfold createUser
      rw [hg1]
      show (if jsIncludes "UNIQUE constraint failed: users.email"
            "UNIQUE constraint failed" = true then
          (Except.error "이미 가입된 이메일입니다." : Except String (Nat × DB))
        else Except.error "UNIQUE constraint failed: users.email") =
        Except.error "이미 가입된 이메일입니다."
      rw [if_pos (by decide)]
    · unfold checkEmailExists
      rw [hfind1]
      rfl
    · unfold checkEmailExists
      rw [← hnorm, hfind1]
      rfl
    · unfold getUserByEmail
      rw [← hnorm]
    · refine ⟨_, by unfold getUserByEmail; rw [hfind1]; rfl, ?_, rfl⟩
      simpa [authProj] using hid

/-- Witness for C7: signing up `"A@Ex.COM "` then `"a@ex.com"` — the second
create is rejected as a duplicate, and both spellings find user 1. -/
theorem email_normalization_duplicate_witness :
    createUser dupDB1 20 dupData2 = Except.error "이미 가입된 이메일입니다." ∧
    checkEmailExists dupDB1 dupData1.email = true ∧
    checkEmailExists dupDB1 dupData2.email = true ∧
    getUserByEmail dupDB1 dupData1.email = getUserByEmail dupDB1 dupData2.email ∧
    (∃ u, getUserByEmail dupDB1 dupData1.email = some u ∧ u.id = 1 ∧
      u.email = normEmail dupData1.email) :=
  email_normalization_duplicate emptyDB 10 20 dupData1 dupData2
    (by decide) 1 dupDB1 rfl

/-- C8 (code bug). `updateUser` never persists a supplied `passwordHash`:
an update object carrying only `passwordHash` is rejected with the
`no data to update` error (nothing is modified), and even alongside a `name`
the hash is silently dropped — only `name` and `updated_at` change, the
stored `password_hash` keeps its old value. -/
theorem updateUser_ignores_passwordHash :
    updateUser demoDB 50 1 { name := none, passwordHash := some "cc:dd" } =
      Except.error "업데이트할 데이터가 없습니다." ∧
    updateUser demoDB 50 1 { name := some "Bob", passwordHash := some "cc:dd" } =
      Except.ok { users := [{ demoUser with name := "Bob", updated_at := 50 }],
                  sessions := demoDB.sessions } := by
  constructor
  · rfl
  · rfl

/-- C5 (code bug). A well-formed password-change request by an authenticated
user with two live sessions reaches `updateUser` with an update object
carrying only `passwordHash`, which `updateUser` rejects, so the request
500s; the database is unchanged and both outstanding sessions (including the
one not used for the request) still verify afterwards — no bulk session
invalidation happens (`deleteAllUserSessions` has no caller). -/
theorem password_change_never_invalidates_sessions :
    (profilePut twoSessionDB 100 "session=s1" pwChangeBody
      (fun _ _ => Except.ok true) (fun _ => "ee:ff")).1 = profileCatchResponse ∧
    (profilePut twoSessionDB 100 "session=s1" pwChangeBody
      (fun _ _ => Except.ok true) (fun _ => "ee:ff")).2 = twoSessionDB ∧
    verifySession (profilePut twoSessionDB 100 "session=s1" pwChangeBody
      (fun _ _ => Except.ok true) (fun _ => "ee:ff")).2 100 "s1" =
      some (publicProj demoUser) ∧
    verifySession (profilePut twoSessionDB 100 "session=s1" pwChangeBody
      (fun _ _ => Except.ok true) (fun _ => "ee:ff")).2 100 "s2" =
      some (publicProj demoUser) := by
  refine ⟨by decide, by decide, by decide, by decide⟩

/-- C6. Whenever the callback's `state` parameter is absent or not equal to
the `oauth_state` cookie value, both the google and the kakao callback
return a 302 redirect having performed no outbound fetch (no token exchange,
no profile fetch), leave the database unchanged (so no session row is
created) and set no cookie. -/
theorem oauth_state_mismatch_stops_flow (cfg : OAuthConfig)
    (req : CallbackRequest) (go : GoogleOracle) (ko : KakaoOracle)
    (db : DB) (sid tok : String) (now : Nat)
    (hmm : req.state = none ∨ req.state ≠ oauthStateFromCookie req.cookie) :
    ((googleCallback cfg req go db sid tok now).status = 302 ∧
     (googleCallback cfg req go db sid tok now).fetches = [] ∧
     (googleCallback cfg req go db sid tok now).db = db ∧
     (googleCallback cfg req go db sid tok now).cookie = none) ∧
    ((kakaoCallback cfg req ko db sid tok now).status = 302 ∧
     (kakaoCallback cfg req ko db sid tok now).fetches = [] ∧
     (kakaoCallback cfg req ko db sid tok now).db = db ∧
     (kakaoCallback cfg req ko db sid tok now).cookie = none) := by
  have hcond : (isFalsyStr req.state ||
      decide (req.state ≠ oauthStateFromCookie req.cookie)) = true := by
    rcases hmm with h | h
    · simp [isFalsyStr, h]
    · simp [h]
  constructor
  · unfold googleCallback
    rw [hcond]
    refine ⟨?_, ?_, ?_, ?_⟩ <;>
      simp [apply_ite CbResult.status, apply_ite CbResult.fetches,
        apply_ite CbResult.db, apply_ite CbResult.cookie, ite_self]
  · unfold kakaoCallback
    rw [hcond]
    refine ⟨?_, ?_, ?_, ?_⟩ <;>
      simp [apply_ite CbResult.status, apply_ite CbResult.fetches,
        apply_ite CbResult.db, apply_ite CbResult.cookie, ite_self]

/-- Witness for C6: a concrete request carrying `state=x` against an
`oauth_state=y` cookie, with oracles that would succeed if ever reached. -/
theorem oauth_state_mismatch_stops_flow_witness :
    ((googleCallback oauthCfgW mismatchReq googleOracleW demoDB "sG" "tG" 7).status = 302 ∧
     (googleCallback oauthCfgW mismatchReq googleOracleW demoDB "sG" "tG" 7).fetches = [] ∧
     (googleCallback oauthCfgW mismatchReq googleOracleW demoDB "sG" "tG" 7).db = demoDB ∧
     (googleCallback oauthCfgW mismatchReq googleOracleW demoDB "sG" "tG" 7).cookie = none) ∧
    ((kakaoCallback oauthCfgW mismatchReq kakaoOracleW demoDB "sG" "tG" 7).status = 302 ∧
     (kakaoCallback oauthCfgW mismatchReq kakaoOracleW demoDB "sG" "tG" 7).fetches = [] ∧
     (kakaoCallback oauthCfgW mismatchReq kakaoOracleW demoDB "sG" "tG" 7).db = demoDB ∧
     (kakaoCallback oauthCfgW mismatchReq kakaoOracleW demoDB "sG" "tG" 7).cookie = none) :=
  oauth_state_mismatch_stops_flow oauthCfgW mismatchReq googleOracleW kakaoOracleW
    demoDB "sG" "tG" 7 (by decide)

end NamWebApp
